import Mathlib

/-!
Verification of the ARENA tournament-management core (src/system.py,
src/enums.py, with the operator approval action from
src/arena_tournament_system.py).

The Python entity store keeps five insertion-ordered dicts of string keys to
flat records.  We embed each record kind as a structure, each dict as an
association list (insertion order preserved), and each operation of
`ArenaSystem` as a pure function on an explicit state.  `datetime.now()` is
passed in as an explicit `now : String` argument.  An uncaught Python
exception (e.g. `TypeError` from subscripting a `None` current user, or a
`KeyError`) is modelled by the `PyResult.exn` outcome; every operation
returns the state as mutated up to the point of the exception.
-/

/-- Outcome of a Python call: a returned value, or an uncaught exception. -/
inductive PyResult (α : Type) where
  | ok : α → PyResult α
  | exn : PyResult α
deriving Repr, DecidableEq

/-- User record, as built by `register_user` (src/system.py lines 85-93) and
the bootstrap admin (lines 29-36, which has no `registered_date` key). -/
structure User where
  username : String
  password : String
  name : String
  email : String
  role : String
  approved : Bool
  registered_date : Option String := none
deriving Repr, DecidableEq

/-- League record, as built by `create_league` (src/system.py lines 136-144). -/
structure League where
  league_id : String
  name : String
  game_type : String
  description : String
  owner : String
  created_date : String
  tournaments : List String
deriving Repr, DecidableEq

/-- Tournament record, as built by `create_tournament` (src/system.py lines
165-178).  `max_players` is a Python int (the GUI passes `int(entry)`), and
`prize_pool` is passed through as entered (a string in the GUI caller). -/
structure Tournament where
  tournament_id : String
  league_id : String
  name : String
  start_date : String
  max_players : Int
  prize_pool : String
  status : String
  participants : List String
  «matches» : List String
  winner : Option String
  created_by : String
  created_date : String
deriving Repr, DecidableEq

/-- Match record, as built by `start_tournament` (src/system.py lines
238-247); `completed_date` is only added by `record_match_result`. -/
structure Match where
  match_id : String
  tournament_id : String
  player1 : String
  player2 : String
  status : String
  winner : Option String
  score : String
  created_date : String
  completed_date : Option String := none
deriving Repr, DecidableEq

/-- Advertisement record, as built by `create_advertisement` (src/system.py
lines 308-316).  `cost` is a number passed by the caller (embedded as `Int`;
no claim depends on fractional costs). -/
structure Advertisement where
  ad_id : String
  title : String
  content : String
  cost : Int
  advertiser : String
  created_date : String
  active : Bool
deriving Repr, DecidableEq

/-- Enum values from src/enums.py. -/
def UserRole.OPERATOR : String := "Operator"

def UserRole.SPECTATOR : String := "Spectator"

def TournamentStatus.ANNOUNCED : String := "Announced"

def TournamentStatus.OPEN_FOR_REGISTRATION : String := "Open for Registration"

def TournamentStatus.IN_PROGRESS : String := "In Progress"

def TournamentStatus.COMPLETED : String := "Completed"

def MatchStatus.SCHEDULED : String := "Scheduled"

def MatchStatus.COMPLETED : String := "Completed"

/-- The in-memory state of `ArenaSystem`: five insertion-ordered dicts plus
the process-wide current-user context. -/
structure ArenaSystem where
  users : List (String × User)
  leagues : List (String × League)
  tournaments : List (String × Tournament)
  «matches» : List (String × Match)
  advertisements : List (String × Advertisement)
  current_user : Option User
deriving Repr, DecidableEq

/-- Python dict assignment `d[k] = v`: replace the first binding of `k` in
place (keeping its position) if one exists, otherwise append at the end. -/
def setAssoc {α : Type} : List (String × α) → String → α → List (String × α)
  | [], k, v => [(k, v)]
  | p :: tl, k, v => if p.1 == k then (k, v) :: tl else p :: setAssoc tl k v

/-- `register_user` (src/system.py lines 68-95). -/
def register_user (s : ArenaSystem) (now username password name email role : String) :
    ArenaSystem × Bool × String :=
  if (s.users.lookup username).isSome then
    (s, false, "Username already exists")
  else
    let u : User :=
      { username := username, password := password, name := name, email := email,
        role := role,
        approved := !(role != UserRole.SPECTATOR),
        registered_date := some now }
    ({s with users := s.users ++ [(username, u)]},
     true, "Registration successful. Account pending approval.")

/-- `login` (src/system.py lines 97-119). -/
def login (s : ArenaSystem) (username password : String) :
    ArenaSystem × Bool × String :=
  match s.users.lookup username with
  | none => (s, false, "User not found")
  | some user =>
    if user.password != password then (s, false, "Invalid password")
    else if !user.approved then (s, false, "Account not approved yet")
    else ({s with current_user := some user}, true, "Login successful")

/-- The operator approval action (src/arena_tournament_system.py lines
430-441): `self.system.users[username]["approved"] = True`.  A missing
username would raise `KeyError`. -/
def approve_user (s : ArenaSystem) (username : String) :
    ArenaSystem × PyResult Unit :=
  match s.users.lookup username with
  | none => (s, PyResult.exn)
  | some u =>
    ({s with users := setAssoc s.users username {u with approved := true}},
     PyResult.ok ())

/-- `create_league` (src/system.py lines 123-146).  Subscripting
`self.current_user["username"]` with no logged-in user raises `TypeError`
before any mutation. -/
def create_league (s : ArenaSystem) (now name game_type description : String) :
    ArenaSystem × PyResult String :=
  match s.current_user with
  | none => (s, PyResult.exn)
  | some cu =>
    let league_id := "LEAGUE_" ++ toString (s.leagues.length + 1)
    let lg : League :=
      { league_id := league_id, name := name, game_type := game_type,
        description := description, owner := cu.username,
        created_date := now, tournaments := [] }
    ({s with leagues := setAssoc s.leagues league_id lg}, PyResult.ok league_id)

/-- `create_tournament` (src/system.py lines 150-184).  The current-user
subscript is evaluated while building the record, before any mutation; the
league's tournament list is appended only when the league exists. -/
def create_tournament (s : ArenaSystem) (now league_id name start_date : String)
    (max_players : Int) (prize_pool : String) : ArenaSystem × PyResult String :=
  match s.current_user with
  | none => (s, PyResult.exn)
  | some cu =>
    let tournament_id := "TOUR_" ++ toString (s.tournaments.length + 1)
    let t : Tournament :=
      { tournament_id := tournament_id, league_id := league_id, name := name,
        start_date := start_date, max_players := max_players,
        prize_pool := prize_pool, status := TournamentStatus.ANNOUNCED,
        participants := [], «matches» := [], winner := none,
        created_by := cu.username, created_date := now }
    let s1 := {s with tournaments := setAssoc s.tournaments tournament_id t}
    match s1.leagues.lookup league_id with
    | some lg =>
      let lg1 := {lg with tournaments := lg.tournaments ++ [tournament_id]}
      ({s1 with leagues := setAssoc s1.leagues league_id lg1},
       PyResult.ok tournament_id)
    | none => (s1, PyResult.ok tournament_id)

/-- `apply_for_tournament` (src/system.py lines 186-211).  The current-user
subscript happens after the existence check and raises on `None`. -/
def apply_for_tournament (s : ArenaSystem) (tournament_id : String) :
    ArenaSystem × PyResult (Bool × String) :=
  match s.tournaments.lookup tournament_id with
  | none => (s, PyResult.ok (false, "Tournament not found"))
  | some t =>
    match s.current_user with
    | none => (s, PyResult.exn)
    | some cu =>
      if t.participants.contains cu.username then
        (s, PyResult.ok (false, "Already registered for this tournament"))
      else if t.max_players ≤ (t.participants.length : Int) then
        (s, PyResult.ok (false, "Tournament is full"))
      else
        let t1 := {t with participants := t.participants ++ [cu.username],
                           status := TournamentStatus.OPEN_FOR_REGISTRATION}
        ({s with tournaments := setAssoc s.tournaments tournament_id t1},
         PyResult.ok (true, "Application submitted successfully"))

/-- The bracket loop of `start_tournament` (src/system.py lines 235-249):
`for i in range(0, len(participants) - 1, 2)` builds one match per even
index `i < len - 1`, with `match_num` counting from 1.  Note that inside
the loop `i + 1 < len(participants)` always holds, so the `"BYE"` branch of
the conditional expression on line 242 is unreachable. -/
def bracket (tournament_id now : String) (ps : List String) :
    List (String × Match) :=
  (((List.range (ps.length - 1)).filter (fun i => i % 2 == 0)).enum).map
    (fun ki =>
      let mid := tournament_id ++ "_MATCH_" ++ toString (ki.1 + 1)
      (mid,
       { match_id := mid, tournament_id := tournament_id,
         player1 := ps.getD ki.2 "",
         player2 := if ki.2 + 1 < ps.length then ps.getD (ki.2 + 1) "" else "BYE",
         status := MatchStatus.SCHEDULED, winner := none, score := "",
         created_date := now }))

/-- `start_tournament` (src/system.py lines 213-252). -/
def start_tournament (s : ArenaSystem) (now tournament_id : String) :
    ArenaSystem × Bool × String :=
  match s.tournaments.lookup tournament_id with
  | none => (s, false, "Tournament not found")
  | some t =>
    if t.participants.length < 2 then
      (s, false, "Need at least 2 participants")
    else
      let nm := bracket tournament_id now t.participants
      let t1 := {t with status := TournamentStatus.IN_PROGRESS,
                         «matches» := t.«matches» ++ nm.map Prod.fst}
      ({s with tournaments := setAssoc s.tournaments tournament_id t1,
               «matches» := nm.foldl (fun acc p => setAssoc acc p.1 p.2) s.«matches»},
       true, "Tournament started successfully")

/-- The winners comprehension of `record_match_result` (src/system.py lines
284-285): winners of the tournament's matches whose `winner` field is
truthy (present and not `None` or the empty string).  In the branch where
it runs, every listed match id is present in the match dict. -/
def tournamentWinners (ms : List (String × Match)) (t : Tournament) :
    List String :=
  t.«matches».filterMap (fun x =>
    match (ms.lookup x).bind Match.winner with
    | some w => if w == "" then none else some w
    | none => none)

/-- `record_match_result` (src/system.py lines 256-291).  The match is
mutated first; `self.tournaments[match["tournament_id"]]` then raises
`KeyError` if the owning tournament is missing (state already mutated). -/
def record_match_result (s : ArenaSystem) (now match_id winner score : String) :
    ArenaSystem × PyResult (Bool × String) :=
  match s.«matches».lookup match_id with
  | none => (s, PyResult.ok (false, "Match not found"))
  | some m =>
    let m1 := {m with status := MatchStatus.COMPLETED, winner := some winner,
                       score := score, completed_date := some now}
    let s1 := {s with «matches» := setAssoc s.«matches» match_id m1}
    match s1.tournaments.lookup m.tournament_id with
    | none => (s1, PyResult.exn)
    | some t =>
      let completed := (t.«matches».filter (fun x =>
          (s1.«matches».lookup x).map Match.status == some MatchStatus.COMPLETED)).length
      if completed == t.«matches».length then
        let ws := tournamentWinners s1.«matches» t
        if ws.isEmpty then
          (s1, PyResult.ok (true, "Match result recorded"))
        else
          let t1 := {t with winner := ws.head?, status := TournamentStatus.COMPLETED}
          ({s1 with tournaments := setAssoc s1.tournaments m.tournament_id t1},
           PyResult.ok (true, "Match result recorded"))
      else
        (s1, PyResult.ok (true, "Match result recorded"))

/-- `create_advertisement` (src/system.py lines 295-318).  The current-user
subscript raises `TypeError` with no logged-in user, before any mutation. -/
def create_advertisement (s : ArenaSystem) (now title content : String)
    (cost : Int) : ArenaSystem × PyResult String :=
  match s.current_user with
  | none => (s, PyResult.exn)
  | some cu =>
    let ad_id := "AD_" ++ toString (s.advertisements.length + 1)
    let ad : Advertisement :=
      { ad_id := ad_id, title := title, content := content, cost := cost,
        advertiser := cu.username, created_date := now, active := true }
    ({s with advertisements := setAssoc s.advertisements ad_id ad},
     PyResult.ok ad_id)

/-! ### Concrete fixtures used by several claims -/

/-- The empty in-memory state (fresh store before any bootstrap). -/
def emptySystem : ArenaSystem := ⟨[], [], [], [], [], none⟩

/-- A tournament fixture with the given participant list. -/
def demoTournament (ps : List String) : Tournament :=
  { tournament_id := "TOUR_1", league_id := "LEAGUE_1", name := "Cup",
    start_date := "2024-01-01", max_players := 8, prize_pool := "100",
    status := TournamentStatus.OPEN_FOR_REGISTRATION, participants := ps,
    «matches» := [], winner := none, created_by := "admin",
    created_date := "2024-01-01" }

/-- A store holding only the tournament `TOUR_1` with participants `ps`. -/
def sysWithT (ps : List String) : ArenaSystem :=
  ⟨[], [], [("TOUR_1", demoTournament ps)], [], [], none⟩

/-! ### C1 -/

/-- C1: evaluating `start_tournament` at the failing input.  The claim (and
the spec) say that participants `[A,B,C]` yield two matches, `(A,B)` and
`(C,"BYE")`.  The code's pairing loop runs `i` over `range(0, n-1, 2)`, so
for three participants it creates only the single match `(A,B)` and silently
drops `C`; the `"BYE"` branch is dead code (`i+1 < n` always holds inside
the loop).  With `[A,B,C,D]` the two claimed matches `(A,B)`, `(C,D)` do
appear.  This theorem records the code's actual behaviour at both inputs. -/
theorem claim_C1_bye_branch_dead :
    ((start_tournament (sysWithT ["A", "B", "C"]) "now" "TOUR_1").1.«matches».map
        (fun p => (p.2.player1, p.2.player2)) = [("A", "B")]) ∧
    ((start_tournament (sysWithT ["A", "B", "C"]) "now" "TOUR_1").2 =
        (true, "Tournament started successfully")) ∧
    (((start_tournament (sysWithT ["A", "B", "C"]) "now" "TOUR_1").1.tournaments.lookup
        "TOUR_1").map Tournament.«matches» = some ["TOUR_1_MATCH_1"]) ∧
    ((start_tournament (sysWithT ["A", "B", "C", "D"]) "now" "TOUR_1").1.«matches».map
        (fun p => (p.2.player1, p.2.player2)) = [("A", "B"), ("C", "D")]) := by
  exact ⟨rfl, rfl, rfl, rfl⟩

/-! ### C7 -/

/-- C7: `start_tournament` on an existing tournament with fewer than 2
participants fails with the insufficient-participants message and returns
the state completely unchanged (tournament status, its match list, and the
global match collection included). -/
theorem claim_C7_insufficient_participants (s : ArenaSystem) (now tid : String)
    (t : Tournament) (ht : s.tournaments.lookup tid = some t)
    (hp : t.participants.length < 2) :
    start_tournament s now tid = (s, false, "Need at least 2 participants") := by
  unfold start_tournament
  rw [ht]
  simp [hp]

/-- C7 witness: a concrete one-participant tournament. -/
theorem claim_C7_witness :
    start_tournament (sysWithT ["A"]) "now" "TOUR_1" =
      (sysWithT ["A"], false, "Need at least 2 participants") :=
  claim_C7_insufficient_participants (sysWithT ["A"]) "now" "TOUR_1"
    (demoTournament ["A"]) rfl (by decide)

/-! ### C2 -/

/-- C2 counterexample: with no current-user context (no prior login), the
three creator-stamping operations do not return an error result — each
raises an uncaught fault (`TypeError` from subscripting the `None` current
user), modelled by `PyResult.exn`. -/
theorem claim_C2_counterexample :
    (create_league emptySystem "now" "n" "g" "d").2 = PyResult.exn ∧
    (create_tournament emptySystem "now" "LEAGUE_1" "n" "2024-01-01" 8 "100").2 =
      PyResult.exn ∧
    (create_advertisement emptySystem "now" "t" "c" 5).2 = PyResult.exn := by
  exact ⟨rfl, rfl, rfl⟩

/-- C2 amended: with no current-user context, `create_league`,
`create_tournament` and `create_advertisement` each raise an uncaught fault
(the precondition is assumed, not checked), leaving the store unchanged;
they do not return an error result. -/
theorem claim_C2_raises_without_login (s : ArenaSystem)
    (h : s.current_user = none) (now a b c pp : String) (mp cost : Int) :
    create_league s now a b c = (s, PyResult.exn) ∧
    create_tournament s now a b c mp pp = (s, PyResult.exn) ∧
    create_advertisement s now a b cost = (s, PyResult.exn) := by
  unfold create_league create_tournament create_advertisement
  rw [h]
  exact ⟨rfl, rfl, rfl⟩

/-- C2 witness for the amended theorem, at the empty store. -/
theorem claim_C2_witness :
    create_league emptySystem "now" "n" "g" "d" = (emptySystem, PyResult.exn) ∧
    create_tournament emptySystem "now" "n" "g" "d" 8 "100" =
      (emptySystem, PyResult.exn) ∧
    create_advertisement emptySystem "now" "n" "g" 5 =
      (emptySystem, PyResult.exn) :=
  claim_C2_raises_without_login emptySystem rfl "now" "n" "g" "d" "100" 8 5

/-! ### C10 -/

/-- A match that has already been completed, with a recorded winner. -/
def completedMatch : Match :=
  { match_id := "TOUR_1_MATCH_1", tournament_id := "TOUR_1",
    player1 := "alice", player2 := "bob", status := MatchStatus.COMPLETED,
    winner := some "alice", score := "2-1", created_date := "2024-01-01",
    completed_date := some "2024-01-02" }

/-- A tournament already Completed with winner alice and that one match. -/
def completedTournament : Tournament :=
  {demoTournament [] with status := TournamentStatus.COMPLETED,
                          winner := some "alice",
                          «matches» := ["TOUR_1_MATCH_1"],
                          participants := ["alice", "bob"]}

/-- A store in which both the match and its tournament are Completed. -/
def completedSys : ArenaSystem :=
  ⟨[], [], [("TOUR_1", completedTournament)], [("TOUR_1_MATCH_1", completedMatch)],
   [], none⟩

/-- The expected overwritten match record. -/
def rerecordedMatch : Match :=
  {completedMatch with winner := some "bob",
                       score := "0-2",
                       completed_date := some "2024-01-03"}

/-- The result of re-recording the already-completed match with a different
winner. -/
def rerecord : ArenaSystem × PyResult (Bool × String) :=
  record_match_result completedSys "2024-01-03" "TOUR_1_MATCH_1" "bob" "0-2"

/-- C10: `record_match_result` never checks the match's current status.
Called on a match already Completed (in a tournament already Completed with
winner alice), it succeeds again, overwrites the stored winner, score and
completion timestamp, re-runs the completion computation, and retroactively
changes the tournament's winner from alice to bob. -/
theorem claim_C10_rerecord_overwrites :
    rerecord.2 = PyResult.ok (true, "Match result recorded") ∧
    rerecord.1.«matches».lookup "TOUR_1_MATCH_1" = some rerecordedMatch ∧
    (rerecord.1.tournaments.lookup "TOUR_1").map Tournament.winner =
      some (some "bob") ∧
    (rerecord.1.tournaments.lookup "TOUR_1").map Tournament.status =
      some TournamentStatus.COMPLETED ∧
    completedTournament.status = TournamentStatus.COMPLETED ∧
    completedTournament.winner = some "alice" ∧
    completedMatch.status = MatchStatus.COMPLETED := by
  exact ⟨rfl, by decide, by decide, rfl, rfl, rfl, rfl⟩

/-! ### Association-list lemmas -/

theorem lookup_append_left {α : Type} {l : List (String × α)}
    (l2 : List (String × α)) {k : String} {v : α} (h : l.lookup k = some v) :
    (l ++ l2).lookup k = some v := by
  induction l with
  | nil => simp [List.lookup] at h
  | cons p tl ih =>
    obtain ⟨a, b⟩ := p
    cases hk : (k == a) with
    | true =>
      simp only [List.cons_append, List.lookup, hk] at h ⊢
      exact h
    | false =>
      simp only [List.cons_append, List.lookup, hk] at h ⊢
      exact ih h

theorem lookup_append_fresh {α : Type} {l : List (String × α)} {k k' : String}
    (v : α) (h : l.lookup k' = none) (hne : k' ≠ k) :
    (l ++ [(k, v)]).lookup k' = none := by
  induction l with
  | nil =>
    have hk : (k' == k) = false := by
      simp [hne]
    simp [List.lookup, hk]
  | cons p tl ih =>
    obtain ⟨a, b⟩ := p
    cases hk : (k' == a) with
    | true =>
      simp only [List.lookup, hk] at h
      exact absurd h (by simp)
    | false =>
      simp only [List.cons_append, List.lookup, hk] at h ⊢
      exact ih h

/-! ### C5 -/

/-- The arguments of one `register_user` call. -/
structure RegArgs where
  now : String
  username : String
  password : String
  name : String
  email : String
  role : String
deriving Repr, DecidableEq

/-- The user record that a successful `register_user` call stores. -/
def mkRegUser (r : RegArgs) : User :=
  { username := r.username, password := r.password, name := r.name,
    email := r.email, role := r.role,
    approved := !(r.role != UserRole.SPECTATOR),
    registered_date := some r.now }

/-- The state after one `register_user` call. -/
def regStep (s : ArenaSystem) (r : RegArgs) : ArenaSystem :=
  (register_user s r.now r.username r.password r.name r.email r.role).1

/-- The state after a sequence of `register_user` calls. -/
def regRun (s : ArenaSystem) (l : List RegArgs) : ArenaSystem :=
  l.foldl regStep s

theorem register_fresh (s : ArenaSystem) (r : RegArgs)
    (h : s.users.lookup r.username = none) :
    register_user s r.now r.username r.password r.name r.email r.role =
      ({s with users := s.users ++ [(r.username, mkRegUser r)]}, true,
       "Registration successful. Account pending approval.") := by
  unfold register_user
  rw [h]
  rfl

theorem register_dup (s : ArenaSystem) (now un pw nm em ro : String)
    (h : (s.users.lookup un).isSome) :
    register_user s now un pw nm em ro = (s, false, "Username already exists") := by
  unfold register_user
  rw [if_pos h]

/-- Auxiliary induction for C5: under freshness and distinctness, every call
in the sequence succeeds and bumps the user count by one. -/
theorem regRun_aux (regs : List RegArgs) :
    ∀ s : ArenaSystem, (regs.map RegArgs.username).Nodup →
    (∀ r ∈ regs, s.users.lookup r.username = none) →
    ∀ i (hi : i < regs.length),
      (register_user (regRun s (regs.take i)) (regs.get ⟨i, hi⟩).now
        (regs.get ⟨i, hi⟩).username (regs.get ⟨i, hi⟩).password
        (regs.get ⟨i, hi⟩).name (regs.get ⟨i, hi⟩).email
        (regs.get ⟨i, hi⟩).role).2 =
        (true, "Registration successful. Account pending approval.") ∧
      (regRun s (regs.take (i + 1))).users.length =
        (regRun s (regs.take i)).users.length + 1 := by
  induction regs with
  | nil => intro s _ _ i hi; exact absurd hi (by simp)
  | cons r tl ih =>
    intro s hnodup hfresh i hi
    have hfr : s.users.lookup r.username = none := hfresh r (by simp)
    have hstep : regStep s r =
        {s with users := s.users ++ [(r.username, mkRegUser r)]} := by
      unfold regStep
      rw [register_fresh s r hfr]
    cases i with
    | zero =>
      constructor
      · show (register_user s r.now r.username r.password r.name r.email
          r.role).2 = (true, "Registration successful. Account pending approval.")
        rw [register_fresh s r hfr]
      · show (regRun s [r]).users.length = s.users.length + 1
        show (regStep s r).users.length = s.users.length + 1
        rw [hstep]
        simp
    | succ j =>
      have hj : j < tl.length := by
        simpa using hi
      have htl_nodup : (tl.map RegArgs.username).Nodup := by
        rw [List.map_cons] at hnodup
        exact hnodup.of_cons
      have hnotin : r.username ∉ tl.map RegArgs.username := by
        rw [List.map_cons] at hnodup
        exact (List.nodup_cons.mp hnodup).1
      have htl_fresh : ∀ r' ∈ tl, (regStep s r).users.lookup r'.username = none := by
        intro r' hr'
        rw [hstep]
        refine lookup_append_fresh _ (hfresh r' (by simp [hr'])) ?_
        intro heq
        exact hnotin (heq ▸ List.mem_map_of_mem RegArgs.username hr')
      have hmain := ih (regStep s r) htl_nodup htl_fresh j hj
      constructor
      · show (register_user (regRun (regStep s r) (List.take j tl))
          (tl.get ⟨j, hj⟩).now (tl.get ⟨j, hj⟩).username
          (tl.get ⟨j, hj⟩).password (tl.get ⟨j, hj⟩).name
          (tl.get ⟨j, hj⟩).email (tl.get ⟨j, hj⟩).role).2 =
          (true, "Registration successful. Account pending approval.")
        exact hmain.1
      · show (regRun (regStep s r) (List.take (j + 1) tl)).users.length =
          (regRun (regStep s r) (List.take j tl)).users.length + 1
        exact hmain.2

/-- C5: for every sequence of `register_user` calls whose usernames are
pairwise distinct and not already present, each call succeeds and increases
the user count by exactly one; and a call with a username already present
always fails with the duplicate-username message and leaves the entire
store unchanged. -/
theorem claim_C5_register_sequences (s : ArenaSystem) (regs : List RegArgs)
    (hnodup : (regs.map RegArgs.username).Nodup)
    (hfresh : ∀ r ∈ regs, s.users.lookup r.username = none) :
    (∀ i (hi : i < regs.length),
      (register_user (regRun s (regs.take i)) (regs.get ⟨i, hi⟩).now
        (regs.get ⟨i, hi⟩).username (regs.get ⟨i, hi⟩).password
        (regs.get ⟨i, hi⟩).name (regs.get ⟨i, hi⟩).email
        (regs.get ⟨i, hi⟩).role).2 =
        (true, "Registration successful. Account pending approval.") ∧
      (regRun s (regs.take (i + 1))).users.length =
        (regRun s (regs.take i)).users.length + 1) ∧
    (∀ (s' : ArenaSystem) (now un pw nm em ro : String),
      (s'.users.lookup un).isSome →
      register_user s' now un pw nm em ro =
        (s', false, "Username already exists")) :=
  ⟨regRun_aux regs s hnodup hfresh,
   fun s' now un pw nm em ro h => register_dup s' now un pw nm em ro h⟩

/-- A concrete registration (non-Spectator role). -/
def regAlice : RegArgs :=
  ⟨"2024-01-01", "alice", "pw1", "Alice", "alice@x.com", "Player"⟩

/-- A concrete registration (Spectator role). -/
def regBob : RegArgs :=
  ⟨"2024-01-02", "bob", "pw2", "Bob", "bob@x.com", "Spectator"⟩

/-- C5 witness: the first call of a concrete two-call sequence bumps the
count by one, and re-registering `alice` afterwards fails and leaves the
store unchanged. -/
theorem claim_C5_witness :
    (regRun emptySystem ([regAlice, regBob].take (0 + 1))).users.length =
      (regRun emptySystem ([regAlice, regBob].take 0)).users.length + 1 ∧
    register_user (regRun emptySystem [regAlice, regBob]) "t" "alice" "q" "Q"
        "q@x.com" "Player" =
      (regRun emptySystem [regAlice, regBob], false, "Username already exists") := by
  have h := claim_C5_register_sequences emptySystem [regAlice, regBob]
    (by decide) (by decide)
  exact ⟨(h.1 0 (by decide)).2,
         h.2 (regRun emptySystem [regAlice, regBob]) "t" "alice" "q" "Q"
           "q@x.com" "Player" (by decide)⟩

/-! ### setAssoc lemmas -/

theorem lookup_setAssoc_self {α : Type} (l : List (String × α)) (k : String)
    (v : α) : (setAssoc l k v).lookup k = some v := by
  induction l with
  | nil => simp [setAssoc, List.lookup]
  | cons p tl ih =>
    obtain ⟨a, b⟩ := p
    by_cases h : a = k
    · subst h
      simp [setAssoc, List.lookup]
    · have h1 : (a == k) = false := by simp [h]
      have h2 : (k == a) = false := by simp [Ne.symm h]
      simp only [setAssoc, h1, if_false, List.lookup, h2]
      exact ih

theorem lookup_setAssoc_ne {α : Type} (l : List (String × α)) (k k' : String)
    (v : α) (hne : k' ≠ k) : (setAssoc l k v).lookup k' = l.lookup k' := by
  induction l with
  | nil =>
    have h2 : (k' == k) = false := by simp [hne]
    simp [setAssoc, List.lookup, h2]
  | cons p tl ih =>
    obtain ⟨a, b⟩ := p
    by_cases h : a = k
    · subst h
      have h2 : (k' == a) = false := by simp [hne]
      simp [setAssoc, List.lookup, h2]
    · have h1 : (a == k) = false := by simp [h]
      by_cases hk : k' = a
      · subst hk
        simp [setAssoc, h1, List.lookup]
      · have h2 : (k' == a) = false := by simp [hk]
        simp only [setAssoc, h1, if_false, List.lookup, h2]
        exact ih

theorem mem_setAssoc {α : Type} (l : List (String × α)) (k : String) (v : α) :
    ∀ p ∈ setAssoc l k v, p ∈ l ∨ p = (k, v) := by
  induction l with
  | nil =>
    intro p hp
    simp [setAssoc] at hp
    right
    exact hp
  | cons q tl ih =>
    intro p hp
    by_cases h : q.1 = k
    · have h1 : (q.1 == k) = true := by simp [h]
      simp only [setAssoc, h1, if_true] at hp
      rcases List.mem_cons.mp hp with h2 | h2
      · right; exact h2
      · left; exact List.mem_cons_of_mem q h2
    · have h1 : (q.1 == k) = false := by simp [h]
      simp only [setAssoc, h1, if_false] at hp
      rcases List.mem_cons.mp hp with h2 | h2
      · left; exact h2 ▸ List.mem_cons_self q tl
      · rcases ih p h2 with h3 | h3
        · left; exact List.mem_cons_of_mem q h3
        · right; exact h3

/-! ### The public operation alphabet and reachability -/

/-- The bootstrap operator account (src/system.py lines 29-36; note it has
no `registered_date` key). -/
def default_admin : User :=
  { username := "admin", password := "admin123", name := "System Administrator",
    email := "admin@arena.com", role := UserRole.OPERATOR, approved := true,
    registered_date := none }

/-- The store after a first run (`__init__` with no persisted document):
empty collections plus the bootstrap admin, nobody logged in. -/
def bootSystem : ArenaSystem :=
  ⟨[("admin", default_admin)], [], [], [], [], none⟩

/-- One invocation of a public operation, with all its arguments (including
the `datetime.now()` reading). -/
inductive Op where
  | opRegister (now username password name email role : String)
  | opLogin (username password : String)
  | opApprove (username : String)
  | opCreateLeague (now name game_type description : String)
  | opCreateTournament (now league_id name start_date : String)
      (max_players : Int) (prize_pool : String)
  | opApply (tournament_id : String)
  | opStart (now tournament_id : String)
  | opRecord (now match_id winner score : String)
  | opCreateAd (now title content : String) (cost : Int)
deriving Repr, DecidableEq

/-- The state reached after one operation (the state component of each
operation's result, i.e. the in-memory store as mutated by the call). -/
def step (s : ArenaSystem) : Op → ArenaSystem
  | Op.opRegister now un pw nm em ro => (register_user s now un pw nm em ro).1
  | Op.opLogin un pw => (login s un pw).1
  | Op.opApprove un => (approve_user s un).1
  | Op.opCreateLeague now a b c => (create_league s now a b c).1
  | Op.opCreateTournament now lid nm sd mp pp =>
      (create_tournament s now lid nm sd mp pp).1
  | Op.opApply tid => (apply_for_tournament s tid).1
  | Op.opStart now tid => (start_tournament s now tid).1
  | Op.opRecord now mid w sc => (record_match_result s now mid w sc).1
  | Op.opCreateAd now t c cost => (create_advertisement s now t c cost).1

/-- The state reached after a sequence of operations. -/
def run (s : ArenaSystem) (ops : List Op) : ArenaSystem := ops.foldl step s

/-- A store is reachable when some operation sequence leads to it from the
first-run bootstrap store. -/
def Reachable (s : ArenaSystem) : Prop := ∃ ops : List Op, s = run bootSystem ops

/-! ### Which operations touch which collections -/

theorem login_users (s : ArenaSystem) (un pw : String) :
    (login s un pw).1.users = s.users := by
  unfold login
  split
  · rfl
  · split
    · rfl
    · split
      · rfl
      · rfl

theorem create_league_users (s : ArenaSystem) (now a b c : String) :
    (create_league s now a b c).1.users = s.users := by
  unfold create_league
  split <;> rfl

theorem create_tournament_users (s : ArenaSystem) (now lid nm sd : String)
    (mp : Int) (pp : String) :
    (create_tournament s now lid nm sd mp pp).1.users = s.users := by
  unfold create_tournament
  split
  · rfl
  · dsimp only
    split <;> rfl

theorem apply_users (s : ArenaSystem) (tid : String) :
    (apply_for_tournament s tid).1.users = s.users := by
  unfold apply_for_tournament
  split
  · rfl
  · split
    · rfl
    · split
      · rfl
      · split <;> rfl

theorem start_users (s : ArenaSystem) (now tid : String) :
    (start_tournament s now tid).1.users = s.users := by
  unfold start_tournament
  split
  · rfl
  · split <;> rfl

theorem record_users (s : ArenaSystem) (now mid w sc : String) :
    (record_match_result s now mid w sc).1.users = s.users := by
  unfold record_match_result
  split
  · rfl
  · dsimp only
    split
    · rfl
    · split
      · split <;> rfl
      · rfl

theorem create_ad_users (s : ArenaSystem) (now a b : String) (cost : Int) :
    (create_advertisement s now a b cost).1.users = s.users := by
  unfold create_advertisement
  split <;> rfl

theorem lookup_append_self {α : Type} {l : List (String × α)} {k : String}
    (v : α) (h : l.lookup k = none) : (l ++ [(k, v)]).lookup k = some v := by
  induction l with
  | nil => simp [List.lookup]
  | cons p tl ih =>
    obtain ⟨a, b⟩ := p
    cases hk : (k == a) with
    | true =>
      simp only [List.lookup, hk] at h
      exact absurd h (by simp)
    | false =>
      simp only [List.cons_append, List.lookup, hk] at h ⊢
      exact ih h

/-! ### C6 -/

/-- Whether an operation is the approval of the given username. -/
def approves (o : Op) (un : String) : Bool :=
  match o with
  | Op.opApprove u => u == un
  | _ => false

theorem register_lookup_mono (s : ArenaSystem) (now un' pw nm em ro un : String)
    (r : User) (h : s.users.lookup un = some r) :
    (register_user s now un' pw nm em ro).1.users.lookup un = some r := by
  unfold register_user
  split
  · exact h
  · dsimp only
    exact lookup_append_left _ h

theorem approve_lookup_ne (s : ArenaSystem) (u un : String) (r : User)
    (h : s.users.lookup un = some r) (hne : u ≠ un) :
    (approve_user s u).1.users.lookup un = some r := by
  unfold approve_user
  split
  · exact h
  case h_2 u' heq =>
    dsimp only
    rw [lookup_setAssoc_ne s.users u un _ (Ne.symm hne)]
    exact h

/-- No single operation other than `approve` of `un` changes the stored
record of user `un`. -/
theorem user_record_step (s : ArenaSystem) (o : Op) (un : String) (r : User)
    (h : s.users.lookup un = some r) (hno : approves o un = false) :
    (step s o).users.lookup un = some r := by
  cases o with
  | opRegister now un' pw nm em ro => exact register_lookup_mono s now un' pw nm em ro un r h
  | opLogin a b =>
    show (login s a b).1.users.lookup un = some r
    rw [login_users]
    exact h
  | opApprove u =>
    have hne : u ≠ un := by simpa [approves] using hno
    exact approve_lookup_ne s u un r h hne
  | opCreateLeague now a b c =>
    show (create_league s now a b c).1.users.lookup un = some r
    rw [create_league_users]
    exact h
  | opCreateTournament now lid nm sd mp pp =>
    show (create_tournament s now lid nm sd mp pp).1.users.lookup un = some r
    rw [create_tournament_users]
    exact h
  | opApply tid =>
    show (apply_for_tournament s tid).1.users.lookup un = some r
    rw [apply_users]
    exact h
  | opStart now tid =>
    show (start_tournament s now tid).1.users.lookup un = some r
    rw [start_users]
    exact h
  | opRecord now mid w sc =>
    show (record_match_result s now mid w sc).1.users.lookup un = some r
    rw [record_users]
    exact h
  | opCreateAd now a b cost =>
    show (create_advertisement s now a b cost).1.users.lookup un = some r
    rw [create_ad_users]
    exact h

/-- No operation sequence free of `approve un` changes the record of `un`. -/
theorem user_record_run (ops : List Op) :
    ∀ (s : ArenaSystem) (un : String) (r : User),
    s.users.lookup un = some r → (∀ o ∈ ops, approves o un = false) →
    (run s ops).users.lookup un = some r := by
  induction ops with
  | nil =>
    intro s un r h _
    exact h
  | cons o tl ih =>
    intro s un r h hall
    exact ih (step s o) un r (user_record_step s o un r h (hall o (by simp)))
      (fun o' ho' => hall o' (by simp [ho']))

theorem approve_sets (s : ArenaSystem) (un : String) (r : User)
    (h : s.users.lookup un = some r) :
    (approve_user s un).1.users.lookup un = some {r with approved := true} := by
  unfold approve_user
  rw [h]
  dsimp only
  exact lookup_setAssoc_self s.users un _

theorem login_not_approved (s : ArenaSystem) (un : String) (r : User)
    (h : s.users.lookup un = some r) (hap : r.approved = false) :
    (login s un r.password).2 = (false, "Account not approved yet") := by
  unfold login
  rw [h]
  simp [hap]

theorem login_approved (s : ArenaSystem) (un : String) (r : User)
    (h : s.users.lookup un = some r) (hap : r.approved = true) :
    login s un r.password =
      ({s with current_user := some r}, true, "Login successful") := by
  unfold login
  rw [h]
  simp [hap]

/-- C6: a user registered with role `role'` is created with
`approved = (role' == Spectator)`; for a non-Spectator registration, as
long as no later operation approves that username, login with the
registered credentials fails with the not-approved message; and once
`approve` is called on the username, login with the same credentials
succeeds. -/
theorem claim_C6_approval_gate (s : ArenaSystem) (now un pw nm em role : String)
    (hfresh : s.users.lookup un = none) (ops : List Op)
    (hops : ∀ o ∈ ops, approves o un = false) :
    (∀ role', ((register_user s now un pw nm em role').1.users.lookup un).map
        User.approved = some (role' == UserRole.SPECTATOR)) ∧
    (role ≠ UserRole.SPECTATOR →
      (login (run (register_user s now un pw nm em role).1 ops) un pw).2 =
        (false, "Account not approved yet")) ∧
    ((login (approve_user (run (register_user s now un pw nm em role).1 ops) un).1
        un pw).2 = (true, "Login successful")) := by
  have hreg : (register_user s now un pw nm em role).1.users.lookup un =
      some (mkRegUser ⟨now, un, pw, nm, em, role⟩) := by
    rw [register_fresh s ⟨now, un, pw, nm, em, role⟩ hfresh]
    exact lookup_append_self _ hfresh
  have hrun := user_record_run ops (register_user s now un pw nm em role).1 un
    (mkRegUser ⟨now, un, pw, nm, em, role⟩) hreg hops
  refine ⟨?_, ?_, ?_⟩
  · intro role'
    rw [register_fresh s ⟨now, un, pw, nm, em, role'⟩ hfresh]
    show ((s.users ++ [(un, mkRegUser ⟨now, un, pw, nm, em, role'⟩)]).lookup un).map
      User.approved = some (role' == UserRole.SPECTATOR)
    rw [lookup_append_self _ hfresh]
    simp [mkRegUser, bne]
  · intro hrole
    have hape : (mkRegUser ⟨now, un, pw, nm, em, role⟩).approved = false := by
      simp [mkRegUser, hrole]
    exact login_not_approved _ un _ hrun hape
  · have happ := approve_sets (run (register_user s now un pw nm em role).1 ops)
      un (mkRegUser ⟨now, un, pw, nm, em, role⟩) hrun
    have hl := login_approved _ un
      ({mkRegUser ⟨now, un, pw, nm, em, role⟩ with approved := true}) happ rfl
    exact congrArg Prod.snd hl

/-- C6 witness: registering `carol` as Player on the bootstrap store; login
fails as not approved, then succeeds once approved. -/
theorem claim_C6_witness :
    (login (run (register_user bootSystem "t" "carol" "pw" "Carol" "c@x.com"
        "Player").1 []) "carol" "pw").2 = (false, "Account not approved yet") ∧
    (login (approve_user (run (register_user bootSystem "t" "carol" "pw" "Carol"
        "c@x.com" "Player").1 []) "carol").1 "carol" "pw").2 =
      (true, "Login successful") := by
  have h := claim_C6_approval_gate bootSystem "t" "carol" "pw" "Carol" "c@x.com"
    "Player" (by decide) [] (by simp)
  exact ⟨h.2.1 (by decide), h.2.2⟩

theorem mem_of_lookup {α : Type} {l : List (String × α)} {k : String} {v : α}
    (h : l.lookup k = some v) : (k, v) ∈ l := by
  induction l with
  | nil => simp [List.lookup] at h
  | cons p tl ih =>
    obtain ⟨a, b⟩ := p
    cases hk : (k == a) with
    | true =>
      simp only [List.lookup, hk] at h
      have hka : k = a := eq_of_beq hk
      have hv : b = v := Option.some.inj h
      subst hka
      subst hv
      exact List.mem_cons_self _ _
    | false =>
      simp only [List.lookup, hk] at h
      exact List.mem_cons_of_mem _ (ih h)

/-! ### C8 -/

theorem register_tournaments (s : ArenaSystem) (now un pw nm em ro : String) :
    (register_user s now un pw nm em ro).1.tournaments = s.tournaments := by
  unfold register_user
  split <;> rfl

theorem login_tournaments (s : ArenaSystem) (un pw : String) :
    (login s un pw).1.tournaments = s.tournaments := by
  unfold login
  split
  · rfl
  · split
    · rfl
    · split <;> rfl

theorem approve_tournaments (s : ArenaSystem) (un : String) :
    (approve_user s un).1.tournaments = s.tournaments := by
  unfold approve_user
  split <;> rfl

theorem create_league_tournaments (s : ArenaSystem) (now a b c : String) :
    (create_league s now a b c).1.tournaments = s.tournaments := by
  unfold create_league
  split <;> rfl

theorem create_ad_tournaments (s : ArenaSystem) (now a b : String) (cost : Int) :
    (create_advertisement s now a b cost).1.tournaments = s.tournaments := by
  unfold create_advertisement
  split <;> rfl

/-- The C8 invariant on one tournament record: no duplicate participants,
and the participant count never exceeds `max(max_players, 0)`. -/
def TournamentBound (t : Tournament) : Prop :=
  t.participants.Nodup ∧ (t.participants.length : Int) ≤ max t.max_players 0

/-- The C8 invariant over the whole store. -/
def StoreBound (s : ArenaSystem) : Prop :=
  ∀ p ∈ s.tournaments, TournamentBound p.2

theorem storeBound_step (s : ArenaSystem) (o : Op) (h : StoreBound s) :
    StoreBound (step s o) := by
  cases o with
  | opRegister now un pw nm em ro =>
    intro p hp
    rw [show (step s (Op.opRegister now un pw nm em ro)).tournaments =
      s.tournaments from register_tournaments s now un pw nm em ro] at hp
    exact h p hp
  | opLogin a b =>
    intro p hp
    rw [show (step s (Op.opLogin a b)).tournaments = s.tournaments from
      login_tournaments s a b] at hp
    exact h p hp
  | opApprove un =>
    intro p hp
    rw [show (step s (Op.opApprove un)).tournaments = s.tournaments from
      approve_tournaments s un] at hp
    exact h p hp
  | opCreateLeague now a b c =>
    intro p hp
    rw [show (step s (Op.opCreateLeague now a b c)).tournaments = s.tournaments
      from create_league_tournaments s now a b c] at hp
    exact h p hp
  | opCreateAd now a b cost =>
    intro p hp
    rw [show (step s (Op.opCreateAd now a b cost)).tournaments = s.tournaments
      from create_ad_tournaments s now a b cost] at hp
    exact h p hp
  | opCreateTournament now lid nm sd mp pp =>
    show StoreBound (create_tournament s now lid nm sd mp pp).1
    unfold create_tournament
    cases hcu : s.current_user with
    | none => exact h
    | some cu =>
      dsimp only
      split
      · intro p hp
        rcases mem_setAssoc _ _ _ p hp with hmem | heq
        · exact h p hmem
        · rw [heq]
          exact ⟨List.nodup_nil, by simp⟩
      · intro p hp
        rcases mem_setAssoc _ _ _ p hp with hmem | heq
        · exact h p hmem
        · rw [heq]
          exact ⟨List.nodup_nil, by simp⟩
  | opApply tid =>
    show StoreBound (apply_for_tournament s tid).1
    unfold apply_for_tournament
    cases ht : s.tournaments.lookup tid with
    | none => exact h
    | some t =>
      dsimp only
      cases hcu : s.current_user with
      | none => exact h
      | some cu =>
        dsimp only
        by_cases hc : t.participants.contains cu.username
        · simp only [hc, if_true]
          exact h
        · simp only [hc, if_false]
          by_cases hfull : t.max_players ≤ (t.participants.length : Int)
          · simp only [if_pos hfull]
            exact h
          · simp only [if_neg hfull]
            intro p hp
            rcases mem_setAssoc _ _ _ p hp with hmem | heq
            · exact h p hmem
            · have hT := h (tid, t) (mem_of_lookup ht)
              rw [heq]
              have hnotin : cu.username ∉ t.participants := by
                simpa using hc
              constructor
              · simp [List.nodup_append, hT.1, hnotin]
              · have hlt : (t.participants.length : Int) < t.max_players :=
                  not_le.mp hfull
                show ((t.participants ++ [cu.username]).length : Int) ≤
                    max t.max_players 0
                rw [List.length_append]
                push_cast
                have h1 : (t.participants.length : Int) + 1 ≤ t.max_players := by
                  omega
                calc (t.participants.length : Int) + 1 ≤ t.max_players := h1
                  _ ≤ max t.max_players 0 := le_max_left _ _
  | opStart now tid =>
    show StoreBound (start_tournament s now tid).1
    unfold start_tournament
    cases ht : s.tournaments.lookup tid with
    | none => exact h
    | some t =>
      dsimp only
      by_cases hp2 : t.participants.length < 2
      · simp only [if_pos hp2]
        exact h
      · simp only [if_neg hp2]
        intro p hp
        rcases mem_setAssoc _ _ _ p hp with hmem | heq
        · exact h p hmem
        · have hT := h (tid, t) (mem_of_lookup ht)
          rw [heq]
          exact hT
  | opRecord now mid w sc =>
    show StoreBound (record_match_result s now mid w sc).1
    unfold record_match_result
    cases hm : s.«matches».lookup mid with
    | none => exact h
    | some m =>
      dsimp only
      cases ht : s.tournaments.lookup m.tournament_id with
      | none => exact h
      | some t =>
        dsimp only
        split
        · split
          · exact h
          · dsimp only
            intro p hp
            rcases mem_setAssoc _ _ _ p hp with hmem | heq
            · exact h p hmem
            · have hT := h (m.tournament_id, t) (mem_of_lookup ht)
              rw [heq]
              exact hT
        · exact h

theorem storeBound_run (ops : List Op) :
    ∀ s : ArenaSystem, StoreBound s → StoreBound (run s ops) := by
  induction ops with
  | nil => intro s h; exact h
  | cons o tl ih => intro s h; exact ih (step s o) (storeBound_step s o h)

/-- An operation sequence creating a tournament with `max_players = -1`
(the GUI caller parses `int(max_players_entry.get())`, which admits
negative values). -/
def badOps : List Op := [Op.opLogin "admin" "admin123",
  Op.opCreateTournament "2024-02-01" "LEAGUE_9" "Neg" "2024-03-01" (-1) "0"]

/-- The tournament record created by `badOps`. -/
def badTournament : Tournament :=
  { tournament_id := "TOUR_1", league_id := "LEAGUE_9", name := "Neg",
    start_date := "2024-03-01", max_players := -1, prize_pool := "0",
    status := "Announced", participants := [], «matches» := [], winner := none,
    created_by := "admin", created_date := "2024-02-01" }

/-- C8 counterexample: a state reachable from the bootstrap store by the
public operations contains a tournament whose (empty) participant list
already exceeds its `max_players`, because `create_tournament` accepts a
negative `max_players`.  So the claimed invariant `length ≤ max_players`
fails as stated. -/
theorem claim_C8_counterexample :
    Reachable (run bootSystem badOps) ∧
    (run bootSystem badOps).tournaments.lookup "TOUR_1" = some badTournament ∧
    ¬ ((badTournament.participants.length : Int) ≤ badTournament.max_players) := by
  refine ⟨⟨badOps, rfl⟩, by decide, by decide⟩

/-- C8 amended: in every state reachable from the bootstrap store by the
public operations, every tournament's participant list has no duplicate
username and its length never exceeds `max(max_players, 0)`; in particular
the claimed bound `length ≤ max_players` holds whenever `max_players ≥ 0`
(`apply_for_tournament` refuses duplicates and full tournaments instead of
violating this). -/
theorem claim_C8_participants_bound (s : ArenaSystem) (hs : Reachable s) :
    ∀ p ∈ s.tournaments, p.2.participants.Nodup ∧
      (p.2.participants.length : Int) ≤ max p.2.max_players 0 ∧
      (0 ≤ p.2.max_players → (p.2.participants.length : Int) ≤ p.2.max_players) := by
  obtain ⟨ops, rfl⟩ := hs
  have hboot : StoreBound bootSystem := by
    intro p hp
    simp [bootSystem] at hp
  have hall := storeBound_run ops bootSystem hboot
  intro p hp
  have h1 := hall p hp
  refine ⟨h1.1, h1.2, fun hnn => ?_⟩
  calc (p.2.participants.length : Int) ≤ max p.2.max_players 0 := h1.2
    _ = p.2.max_players := max_eq_left hnn

/-- An operation sequence creating an ordinary tournament. -/
def goodOps : List Op := [Op.opLogin "admin" "admin123",
  Op.opCreateTournament "2024-02-01" "LEAGUE_9" "Cup" "2024-03-01" 4 "100"]

/-- The tournament record created by `goodOps`. -/
def goodTournament : Tournament :=
  { tournament_id := "TOUR_1", league_id := "LEAGUE_9", name := "Cup",
    start_date := "2024-03-01", max_players := 4, prize_pool := "100",
    status := "Announced", participants := [], «matches» := [], winner := none,
    created_by := "admin", created_date := "2024-02-01" }

/-- C8 witness: the amended invariant evaluated on a concrete reachable
state. -/
theorem claim_C8_witness :
    goodTournament.participants.Nodup ∧
    (goodTournament.participants.length : Int) ≤ max goodTournament.max_players 0 ∧
    (0 ≤ goodTournament.max_players →
      (goodTournament.participants.length : Int) ≤ goodTournament.max_players) :=
  claim_C8_participants_bound (run bootSystem goodOps) ⟨goodOps, rfl⟩
    ("TOUR_1", goodTournament) (by decide)

/-! ### C3 -/

theorem length_filter_eq_iff_all {α : Type} (l : List α) (q : α → Bool) :
    (l.filter q).length = l.length ↔ ∀ a ∈ l, q a = true := by
  constructor
  · intro h a ha
    by_contra hcon
    have hlt : (l.filter q).length < l.length :=
      List.length_filter_lt_length_iff_exists.mpr ⟨a, ha, by simpa using hcon⟩
    omega
  · intro h
    rw [List.filter_eq_self.mpr h]

/-- C3 amended: `record_match_result` on an existing match (with existing
owning tournament) always succeeds, marks the match Completed with the given
winner, score and completion timestamp, and transitions the tournament to
Completed — with its winner set to the first nonempty recorded winner in
the tournament's match-id list — exactly when every match in that list has
status Completed AND at least one of them has a nonempty recorded winner;
otherwise the tournament record is left untouched.  (The claim as stated
omits the second condition: all matches Completed alone does not suffice.) -/
theorem claim_C3_completion (s : ArenaSystem) (now mid w sc : String)
    (m : Match) (t : Tournament)
    (hm : s.«matches».lookup mid = some m)
    (ht : s.tournaments.lookup m.tournament_id = some t) :
    record_match_result s now mid w sc =
      (let m1 : Match := {m with status := MatchStatus.COMPLETED,
                                 winner := some w, score := sc,
                                 completed_date := some now}
       let s1 : ArenaSystem := {s with «matches» := setAssoc s.«matches» mid m1}
       let ws := tournamentWinners s1.«matches» t
       if (t.«matches».all fun x =>
            (s1.«matches».lookup x).map Match.status == some MatchStatus.COMPLETED) ∧
          ws ≠ [] then
         {s1 with tournaments :=
                    setAssoc s1.tournaments m.tournament_id
                      ({t with winner := ws.head?,
                               status := TournamentStatus.COMPLETED})}
       else s1,
       PyResult.ok (true, "Match result recorded")) := by
  unfold record_match_result
  rw [hm]
  dsimp only
  rw [ht]
  dsimp only
  split
  case isTrue hc1 =>
    have hall := List.all_eq_true.mpr
      ((length_filter_eq_iff_all _ _).mp (beq_iff_eq.mp hc1))
    split
    case isTrue hc2 =>
      have hws := List.isEmpty_iff.mp hc2
      split
      case isTrue hP => exact absurd hws hP.2
      case isFalse hP => rfl
    case isFalse hc2 =>
      simp only [List.isEmpty_iff] at hc2
      split
      case isTrue hP => rfl
      case isFalse hP => exact absurd ⟨hall, hc2⟩ hP
  case isFalse hc1 =>
    have hnall : ¬ ((t.«matches».all fun x =>
        ((setAssoc s.«matches» mid
          {m with status := MatchStatus.COMPLETED, winner := some w,
                  score := sc, completed_date := some now}).lookup x).map
          Match.status == some MatchStatus.COMPLETED) = true) := by
      intro hcon
      exact hc1 (by
        rw [beq_iff_eq]
        exact (length_filter_eq_iff_all _ _).mpr (List.all_eq_true.mp hcon))
    split
    case isTrue hP => exact absurd hP.1 hnall
    case isFalse hP => rfl

/-- A scheduled (not yet completed) match between alice and bob. -/
def schedMatch : Match :=
  { match_id := "TOUR_1_MATCH_1", tournament_id := "TOUR_1",
    player1 := "alice", player2 := "bob", status := MatchStatus.SCHEDULED,
    winner := none, score := "", created_date := "2024-01-01",
    completed_date := none }

/-- An in-progress tournament owning exactly that match. -/
def inProgressT : Tournament :=
  {demoTournament ["alice", "bob"] with status := TournamentStatus.IN_PROGRESS,
                                        «matches» := ["TOUR_1_MATCH_1"]}

/-- A store holding the in-progress tournament and its scheduled match. -/
def inProgressSys : ArenaSystem :=
  ⟨[], [], [("TOUR_1", inProgressT)], [("TOUR_1_MATCH_1", schedMatch)], [], none⟩

/-- The result of recording the only match with an empty winner string. -/
def emptyWinnerRes : ArenaSystem × PyResult (Bool × String) :=
  record_match_result inProgressSys "2024-01-05" "TOUR_1_MATCH_1" "" "0-0"

/-- C3 counterexample: recording the tournament's only match with winner
`""` leaves every match in the tournament's match-id list with status
Completed, yet the tournament is NOT transitioned to Completed (its status
stays In Progress and it gets no winner) — the empty winner string is
filtered out as falsy, so the claimed "exactly when every match is
Completed" fails in the right-to-left direction. -/
theorem claim_C3_counterexample :
    emptyWinnerRes.2 = PyResult.ok (true, "Match result recorded") ∧
    (inProgressT.«matches».all fun x =>
      (emptyWinnerRes.1.«matches».lookup x).map Match.status ==
        some MatchStatus.COMPLETED) = true ∧
    (emptyWinnerRes.1.tournaments.lookup "TOUR_1").map Tournament.status =
      some TournamentStatus.IN_PROGRESS ∧
    (emptyWinnerRes.1.tournaments.lookup "TOUR_1").map Tournament.winner =
      some none ∧
    TournamentStatus.IN_PROGRESS ≠ TournamentStatus.COMPLETED := by
  exact ⟨rfl, rfl, rfl, rfl, by decide⟩

/-- C3 witness: recording the same match with a real winner does complete
the tournament, with the winner taken from the first match with a nonempty
recorded winner. -/
theorem claim_C3_witness :
    (record_match_result inProgressSys "2024-01-05" "TOUR_1_MATCH_1" "alice"
      "2-0").1.tournaments.lookup "TOUR_1" =
      some ({inProgressT with winner := some "alice",
                              status := TournamentStatus.COMPLETED}) := by
  rw [claim_C3_completion inProgressSys "2024-01-05" "TOUR_1_MATCH_1" "alice"
    "2-0" schedMatch inProgressT rfl rfl]
  decide

/-! ### Persistence gateway: the JSON document (src/system.py lines 40-64)

`save_data` serializes the five dicts into one JSON document; `load_data`
restores them on startup.  We embed the document as a `Json` value.  All
values the store puts in records are strings, booleans, integers, lists of
strings, or `None`; `json.dump`/`json.load` round-trip these exactly.  A
key that a record lacks (the bootstrap admin has no `registered_date`, a
match has no `completed_date` until completed) is simply absent from the
object.  Collections that are missing from the document (`data.get(k, {})`)
or do not decode at the record types load as empty. -/

inductive Json where
  | null : Json
  | bool : Bool → Json
  | num : Int → Json
  | str : String → Json
  | arr : List Json → Json
  | obj : List (String × Json) → Json
deriving Repr

/-- Encode a nullable string (Python `None` becomes JSON `null`). -/
def jStr : Option String → Json
  | none => Json.null
  | some s => Json.str s

def Json.asStr : Json → Option String
  | Json.str s => some s
  | _ => none

def Json.asBool : Json → Option Bool
  | Json.bool b => some b
  | _ => none

def Json.asInt : Json → Option Int
  | Json.num n => some n
  | _ => none

def Json.asOptStr : Json → Option (Option String)
  | Json.null => some none
  | Json.str s => some (some s)
  | _ => none

def decodeStrs : List Json → Option (List String)
  | [] => some []
  | j :: tl =>
    match Json.asStr j, decodeStrs tl with
    | some a, some r => some (a :: r)
    | _, _ => none

def Json.asStrList : Json → Option (List String)
  | Json.arr l => decodeStrs l
  | _ => none

def encodeUser (u : User) : Json :=
  Json.obj ([("username", Json.str u.username), ("password", Json.str u.password),
    ("name", Json.str u.name), ("email", Json.str u.email),
    ("role", Json.str u.role), ("approved", Json.bool u.approved)] ++
    (match u.registered_date with
     | none => []
     | some d => [("registered_date", Json.str d)]))

def decodeUser : Json → Option User
  | Json.obj l =>
    match (l.lookup "username").bind Json.asStr,
          (l.lookup "password").bind Json.asStr,
          (l.lookup "name").bind Json.asStr,
          (l.lookup "email").bind Json.asStr,
          (l.lookup "role").bind Json.asStr,
          (l.lookup "approved").bind Json.asBool with
    | some un, some pw, some nm, some em, some ro, some ap =>
      some ⟨un, pw, nm, em, ro, ap, (l.lookup "registered_date").bind Json.asStr⟩
    | _, _, _, _, _, _ => none
  | _ => none

def encodeLeague (lg : League) : Json :=
  Json.obj [("league_id", Json.str lg.league_id), ("name", Json.str lg.name),
    ("game_type", Json.str lg.game_type),
    ("description", Json.str lg.description), ("owner", Json.str lg.owner),
    ("created_date", Json.str lg.created_date),
    ("tournaments", Json.arr (lg.tournaments.map Json.str))]

def decodeLeague : Json → Option League
  | Json.obj l =>
    match (l.lookup "league_id").bind Json.asStr,
          (l.lookup "name").bind Json.asStr,
          (l.lookup "game_type").bind Json.asStr,
          (l.lookup "description").bind Json.asStr,
          (l.lookup "owner").bind Json.asStr,
          (l.lookup "created_date").bind Json.asStr,
          (l.lookup "tournaments").bind Json.asStrList with
    | some a, some b, some c, some d, some e, some f, some g =>
      some ⟨a, b, c, d, e, f, g⟩
    | _, _, _, _, _, _, _ => none
  | _ => none

def encodeTournament (t : Tournament) : Json :=
  Json.obj [("tournament_id", Json.str t.tournament_id),
    ("league_id", Json.str t.league_id), ("name", Json.str t.name),
    ("start_date", Json.str t.start_date), ("max_players", Json.num t.max_players),
    ("prize_pool", Json.str t.prize_pool), ("status", Json.str t.status),
    ("participants", Json.arr (t.participants.map Json.str)),
    ("matches", Json.arr (t.«matches».map Json.str)),
    ("winner", jStr t.winner), ("created_by", Json.str t.created_by),
    ("created_date", Json.str t.created_date)]

def decodeTournament : Json → Option Tournament
  | Json.obj l =>
    match (l.lookup "tournament_id").bind Json.asStr,
          (l.lookup "league_id").bind Json.asStr,
          (l.lookup "name").bind Json.asStr,
          (l.lookup "start_date").bind Json.asStr,
          (l.lookup "max_players").bind Json.asInt,
          (l.lookup "prize_pool").bind Json.asStr,
          (l.lookup "status").bind Json.asStr,
          (l.lookup "participants").bind Json.asStrList,
          (l.lookup "matches").bind Json.asStrList,
          (l.lookup "winner").bind Json.asOptStr,
          (l.lookup "created_by").bind Json.asStr,
          (l.lookup "created_date").bind Json.asStr with
    | some a, some b, some c, some d, some e, some f, some g, some h,
      some i, some j, some k, some m => some ⟨a, b, c, d, e, f, g, h, i, j, k, m⟩
    | _, _, _, _, _, _, _, _, _, _, _, _ => none
  | _ => none

def encodeMatch (m : Match) : Json :=
  Json.obj ([("match_id", Json.str m.match_id),
    ("tournament_id", Json.str m.tournament_id),
    ("player1", Json.str m.player1), ("player2", Json.str m.player2),
    ("status", Json.str m.status), ("winner", jStr m.winner),
    ("score", Json.str m.score), ("created_date", Json.str m.created_date)] ++
    (match m.completed_date with
     | none => []
     | some d => [("completed_date", Json.str d)]))

def decodeMatch : Json → Option Match
  | Json.obj l =>
    match (l.lookup "match_id").bind Json.asStr,
          (l.lookup "tournament_id").bind Json.asStr,
          (l.lookup "player1").bind Json.asStr,
          (l.lookup "player2").bind Json.asStr,
          (l.lookup "status").bind Json.asStr,
          (l.lookup "winner").bind Json.asOptStr,
          (l.lookup "score").bind Json.asStr,
          (l.lookup "created_date").bind Json.asStr with
    | some a, some b, some c, some d, some e, some f, some g, some h =>
      some ⟨a, b, c, d, e, f, g, h, (l.lookup "completed_date").bind Json.asStr⟩
    | _, _, _, _, _, _, _, _ => none
  | _ => none

def encodeAdvertisement (a : Advertisement) : Json :=
  Json.obj [("ad_id", Json.str a.ad_id), ("title", Json.str a.title),
    ("content", Json.str a.content), ("cost", Json.num a.cost),
    ("advertiser", Json.str a.advertiser),
    ("created_date", Json.str a.created_date), ("active", Json.bool a.active)]

def decodeAdvertisement : Json → Option Advertisement
  | Json.obj l =>
    match (l.lookup "ad_id").bind Json.asStr,
          (l.lookup "title").bind Json.asStr,
          (l.lookup "content").bind Json.asStr,
          (l.lookup "cost").bind Json.asInt,
          (l.lookup "advertiser").bind Json.asStr,
          (l.lookup "created_date").bind Json.asStr,
          (l.lookup "active").bind Json.asBool with
    | some a, some b, some c, some d, some e, some f, some g =>
      some ⟨a, b, c, d, e, f, g⟩
    | _, _, _, _, _, _, _ => none
  | _ => none

/-- Serialize one dict as a JSON object in insertion order. -/
def encodeColl {α : Type} (enc : α → Json) (l : List (String × α)) : Json :=
  Json.obj (l.map (fun p => (p.1, enc p.2)))

def decodeEntries {α : Type} (dec : Json → Option α) :
    List (String × Json) → Option (List (String × α))
  | [] => some []
  | (k, v) :: tl =>
    match dec v, decodeEntries dec tl with
    | some a, some r => some ((k, a) :: r)
    | _, _ => none

def decodeColl {α : Type} (dec : Json → Option α) : Json → Option (List (String × α))
  | Json.obj l => decodeEntries dec l
  | _ => none

/-- `save_data` (src/system.py lines 40-50): the document written to disk. -/
def save_data (s : ArenaSystem) : Json :=
  Json.obj [("users", encodeColl encodeUser s.users),
    ("leagues", encodeColl encodeLeague s.leagues),
    ("tournaments", encodeColl encodeTournament s.tournaments),
    ("matches", encodeColl encodeMatch s.«matches»),
    ("advertisements", encodeColl encodeAdvertisement s.advertisements)]

/-- What `load_data` finds at the fixed location: no file at all, a file
that fails to parse, or a parsed JSON document. -/
inductive LoadInput where
  | noFile : LoadInput
  | badParse : LoadInput
  | parsed : Json → LoadInput

/-- `data.get(k, {})` followed by reading the collection at its record
type; missing or non-decodable collections load as empty. -/
def collField {α : Type} (dec : Json → Option α) (l : List (String × Json))
    (k : String) : List (String × α) :=
  ((l.lookup k).bind (decodeColl dec)).getD []

/-- `load_data` (src/system.py lines 52-64).  With no file, or when parsing
fails (the bare `except: pass`, which also swallows a document that is not
an object), the collections are left untouched. -/
def load_data (s : ArenaSystem) : LoadInput → ArenaSystem
  | LoadInput.noFile => s
  | LoadInput.badParse => s
  | LoadInput.parsed (Json.obj l) =>
      { s with users := collField decodeUser l "users",
               leagues := collField decodeLeague l "leagues",
               tournaments := collField decodeTournament l "tournaments",
               «matches» := collField decodeMatch l "matches",
               advertisements := collField decodeAdvertisement l "advertisements" }
  | LoadInput.parsed _ => s

/-- `__init__` (src/system.py lines 16-36): load, then add the bootstrap
admin only when no `admin` key is present. -/
def initArena (inp : LoadInput) : ArenaSystem :=
  let s := load_data emptySystem inp
  if (s.users.lookup "admin").isSome then s
  else {s with users := setAssoc s.users "admin" default_admin}

/-! ### Round-trip lemmas -/

theorem decodeStrs_map (ps : List String) :
    decodeStrs (ps.map Json.str) = some ps := by
  induction ps with
  | nil => rfl
  | cons a tl ih => simp [decodeStrs, Json.asStr, ih]

theorem decodeUser_encodeUser (u : User) : decodeUser (encodeUser u) = some u := by
  obtain ⟨un, pw, nm, em, ro, ap, rd⟩ := u
  cases rd <;> rfl

theorem decodeLeague_encodeLeague (lg : League) :
    decodeLeague (encodeLeague lg) = some lg := by
  obtain ⟨a, b, c, d, e, f, g⟩ := lg
  simp [decodeLeague, encodeLeague, List.lookup, Json.asStr, Json.asStrList,
    Option.bind, decodeStrs_map]

theorem decodeTournament_encodeTournament (t : Tournament) :
    decodeTournament (encodeTournament t) = some t := by
  obtain ⟨a, b, c, d, e, f, g, h, i, j, k, m⟩ := t
  cases j <;>
    simp [decodeTournament, encodeTournament, List.lookup, Json.asStr,
      Json.asInt, Json.asOptStr, Json.asStrList, jStr, Option.bind,
      decodeStrs_map]

theorem decodeMatch_encodeMatch (m : Match) :
    decodeMatch (encodeMatch m) = some m := by
  obtain ⟨a, b, c, d, e, f, g, h, i⟩ := m
  cases f <;> cases i <;> rfl

theorem decodeAdvertisement_encodeAdvertisement (a : Advertisement) :
    decodeAdvertisement (encodeAdvertisement a) = some a := by
  obtain ⟨x1, x2, x3, x4, x5, x6, x7⟩ := a
  rfl

theorem decodeEntries_map {α : Type} (dec : Json → Option α) (enc : α → Json)
    (h : ∀ a, dec (enc a) = some a) (l : List (String × α)) :
    decodeEntries dec (l.map (fun p => (p.1, enc p.2))) = some l := by
  induction l with
  | nil => rfl
  | cons p tl ih =>
    obtain ⟨k, v⟩ := p
    simp [decodeEntries, h v, ih]

theorem decodeColl_encodeColl {α : Type} (dec : Json → Option α)
    (enc : α → Json) (h : ∀ a, dec (enc a) = some a) (l : List (String × α)) :
    decodeColl dec (encodeColl enc l) = some l := by
  show decodeEntries dec (l.map (fun p => (p.1, enc p.2))) = some l
  exact decodeEntries_map dec enc h l

/-- C4: saving any store and loading the saved document into a fresh store
yields the five collections per-field equal to the originals. -/
theorem claim_C4_save_load_roundtrip (s : ArenaSystem) :
    (load_data emptySystem (LoadInput.parsed (save_data s))).users = s.users ∧
    (load_data emptySystem (LoadInput.parsed (save_data s))).leagues = s.leagues ∧
    (load_data emptySystem (LoadInput.parsed (save_data s))).tournaments =
      s.tournaments ∧
    (load_data emptySystem (LoadInput.parsed (save_data s))).«matches» =
      s.«matches» ∧
    (load_data emptySystem (LoadInput.parsed (save_data s))).advertisements =
      s.advertisements := by
  unfold save_data load_data
  refine ⟨?_, ?_, ?_, ?_, ?_⟩ <;>
    simp [collField, List.lookup,
      decodeColl_encodeColl decodeUser encodeUser decodeUser_encodeUser,
      decodeColl_encodeColl decodeLeague encodeLeague decodeLeague_encodeLeague,
      decodeColl_encodeColl decodeTournament encodeTournament
        decodeTournament_encodeTournament,
      decodeColl_encodeColl decodeMatch encodeMatch decodeMatch_encodeMatch,
      decodeColl_encodeColl decodeAdvertisement encodeAdvertisement
        decodeAdvertisement_encodeAdvertisement]

/-- C9: on first run — no persisted document, an unparseable one, or an
empty object — the store contains exactly the single bootstrap admin
(username `admin`, the fixed default password, role Operator, approved);
and whenever the loaded document already contains an `admin` user (its
fields possibly edited), the loaded store is kept as-is: the account is not
re-created or overwritten. -/
theorem claim_C9_bootstrap :
    initArena LoadInput.noFile = bootSystem ∧
    initArena LoadInput.badParse = bootSystem ∧
    initArena (LoadInput.parsed (Json.obj [])) = bootSystem ∧
    bootSystem.users = [("admin", default_admin)] ∧
    default_admin.password = "admin123" ∧
    default_admin.role = UserRole.OPERATOR ∧
    default_admin.approved = true ∧
    (∀ j : Json,
      ((load_data emptySystem (LoadInput.parsed j)).users.lookup "admin").isSome →
      initArena (LoadInput.parsed j) = load_data emptySystem (LoadInput.parsed j)) := by
  refine ⟨rfl, rfl, rfl, rfl, rfl, rfl, rfl, ?_⟩
  intro j hj
  unfold initArena
  dsimp only
  rw [if_pos hj]

/-- The bootstrap admin with edited fields, as it might sit in a persisted
document. -/
def editedAdmin : User :=
  {default_admin with password := "changed", name := "Edited Admin"}

/-- A persisted document whose user collection already holds the (edited)
admin account. -/
def editedDoc : Json := save_data ⟨[("admin", editedAdmin)], [], [], [], [], none⟩

/-- C9 witness: loading a document that already contains an edited `admin`
leaves the loaded store untouched — the account is not re-created — and
the edited record survives. -/
theorem claim_C9_witness :
    (initArena (LoadInput.parsed editedDoc) =
      load_data emptySystem (LoadInput.parsed editedDoc)) ∧
    (initArena (LoadInput.parsed editedDoc)).users = [("admin", editedAdmin)] :=
  ⟨claim_C9_bootstrap.2.2.2.2.2.2.2 editedDoc (by decide), by decide⟩
